import Mathlib

/-!
Verification of the CS:GO demo event-projection layer (`src/api/parsedemo.go`).

The Go file registers callbacks on an external demo parser and folds the
parser's event stream into a `GameEvents` accumulator.  We embed that fold
shallowly: each registered handler becomes a Lean function on an explicit
`ParseState`; ambient parser state that a handler queries at event time
(the warmup flag at round start, the current frame/tick, the team scores at
round end) is carried as a field of the corresponding input event.

Modelling conventions:
* Go pointers that may be nil (`e.Killer`, `e.Victim`, `e.Assister`,
  `e.Weapon`, `grenade.Thrower`, `e.Player`) become `Option` values.  A Go
  nil-pointer dereference (a panic) is modelled as `none` in the handler's
  `Option ParseState` result.
* Position coordinates are copied verbatim by the handlers and never
  computed with, so they are modelled as `Int` (the `float32` casts in the
  Go code are the identity in the model).
* `string(e.Site)` converts a rune to a string; the site is a `Char` and
  the handler applies `Char.toString`.
* The Go map `Rounds map[int][]KillEvent` is modelled as a total function
  `Nat → List KillEvent`; a missing key is the empty list, matching Go's
  nil-slice `append` semantics.
* `RoundEndReason` and `Team` codes come from the external demoinfocs
  library and are plain integers there; the three constants the switch
  statement names are reproduced with the library's values.
-/

/-- `Position` from the source: a snapshot of an entity's coordinates. -/
structure Position where
  X : Int
  Y : Int
  Z : Int
  deriving Repr, DecidableEq

/-- Go's zero value for `Position` (used for omitted struct fields and
unassigned `var` declarations). -/
def Position.zero : Position := { X := 0, Y := 0, Z := 0 }

/-- `RoundStart` struct from the source (declared but never populated by
any handler). -/
structure RoundStart where
  Round : Int
  IsWarmup : Bool
  Tick : Int
  deriving Repr, DecidableEq

/-- `KillEvent` from the source. -/
structure KillEvent where
  Killer : String
  Assister : String
  Victim : String
  Weapon : String
  Headshot : Bool
  Penetrated : Bool
  Tick : Int
  KillerPos : Position
  VictimPos : Position
  deriving Repr, DecidableEq

/-- `GrenadeEvent` from the source. -/
structure GrenadeEvent where
  Thrower : String
  GrenadeType : String
  Position : Position
  Tick : Int
  deriving Repr, DecidableEq

/-- `PlayerHurtEvent` from the source (modelled but never subscribed to in
the event wiring). -/
structure PlayerHurtEvent where
  Player : String
  Attacker : String
  Health : Int
  Armor : Int
  Weapon : String
  Damage : Int
  DamageArmor : Int
  HitGroup : String
  Tick : Int
  deriving Repr, DecidableEq

/-- `BombEvent` from the source. -/
structure BombEvent where
  Player : String
  Site : String
  EventType : String
  Position : Position
  Tick : Int
  deriving Repr, DecidableEq

/-- `RoundEvent` from the source. -/
structure RoundEvent where
  EventType : String
  Reason : String
  Winner : String
  ScoreCT : Int
  ScoreT : Int
  Tick : Int
  deriving Repr, DecidableEq

/-- `GameEvents` aggregate from the source.  `Rounds` models the Go map
`map[int][]KillEvent` as a total function with default `[]`. -/
structure GameEvents where
  Kills : List KillEvent
  Grenades : List GrenadeEvent
  PlayerHurts : List PlayerHurtEvent
  BombEvents : List BombEvent
  RoundEvents : List RoundEvent
  Rounds : Nat → List KillEvent

/-- The accumulator created at the start of `parse`:
`gameEvents := &GameEvents{Rounds: make(map[int][]KillEvent)}`. -/
def initGameEvents : GameEvents :=
  { Kills := []
  , Grenades := []
  , PlayerHurts := []
  , BombEvents := []
  , RoundEvents := []
  , Rounds := fun _ => [] }

/-- The running context the handlers close over:
`currentRound := 0; isWarmup := true` plus the shared accumulator. -/
structure ParseState where
  currentRound : Nat
  isWarmup : Bool
  gameEvents : GameEvents

/-- Initial state of one `parse` invocation. -/
def initState : ParseState :=
  { currentRound := 0, isWarmup := true, gameEvents := initGameEvents }

/-- The input events the registered handlers can receive, one constructor
per registered callback plus `playerHurt` for the hurt events the source
models but never subscribes to.  Ambient parser state read inside a handler
(`p.GameState().IsWarmupPeriod()`, `p.CurrentFrame()`, the team scores) is
a field of the event that triggers the read. -/
inductive DemoEvent where
  | roundStart (warmupNow : Bool)
  | kill (killer victim : Option (String × Position)) (assister : Option String)
      (weapon : Option String) (isHeadshot : Bool) (penetratedObjects : Int) (tick : Int)
  | grenade (thrower : Option String) (grenadeType : String) (pos : Position) (tick : Int)
  | bombPlanted (planter : Option String) (site : Char) (tick : Int)
  | bombDefused (defuser : Option String) (tick : Int)
  | bombExplode (tick : Int)
  | roundEnd (reason : Int) (winner : Int) (scoreCT : Int) (scoreT : Int) (tick : Int)
  | playerHurt

/-- `events.RoundStart` handler: `currentRound++` and refresh the warmup
flag from current game state. -/
def handleRoundStart (warmupNow : Bool) (s : ParseState) : ParseState :=
  { s with currentRound := s.currentRound + 1, isWarmup := warmupNow }

/-- The `KillEvent` record the kill handler builds: each nil-checked
pointer contributes its data when present and the Go zero value (empty
string, zero position) when absent. -/
def killEventOf (killer victim : Option (String × Position)) (assister : Option String)
    (weapon : Option String) (isHeadshot : Bool) (penetratedObjects : Int)
    (tick : Int) : KillEvent :=
  { Killer := match killer with | some k => k.1 | none => ""
  , Assister := match assister with | some a => a | none => ""
  , Victim := match victim with | some v => v.1 | none => ""
  , Weapon := match weapon with | some w => w | none => ""
  , Headshot := isHeadshot
  , Penetrated := decide (0 < penetratedObjects)
  , Tick := tick
  , KillerPos := match killer with | some k => k.2 | none => Position.zero
  , VictimPos := match victim with | some v => v.2 | none => Position.zero }

/-- `events.Kill` handler: skip during warmup, otherwise append the built
`KillEvent` to the sequence keyed by the current round. -/
def handleKill (killer victim : Option (String × Position)) (assister : Option String)
    (weapon : Option String) (isHeadshot : Bool) (penetratedObjects : Int)
    (tick : Int) (s : ParseState) : ParseState :=
  if s.isWarmup then s
  else
    let ev := killEventOf killer victim assister weapon isHeadshot penetratedObjects tick
    { s with gameEvents := { s.gameEvents with
        Rounds := fun r =>
          if r = s.currentRound then s.gameEvents.Rounds r ++ [ev]
          else s.gameEvents.Rounds r } }

/-- `events.GrenadeEventIf` handler: skip during warmup; otherwise it
dereferences `grenade.Thrower.Name` with no nil check, so an absent
thrower is a nil-pointer panic (`none`). -/
def handleGrenade (thrower : Option String) (grenadeType : String) (pos : Position)
    (tick : Int) (s : ParseState) : Option ParseState :=
  if s.isWarmup then some s
  else
    match thrower with
    | none => none
    | some throwerName =>
      some { s with gameEvents := { s.gameEvents with
        Grenades := s.gameEvents.Grenades ++
          [{ Thrower := throwerName, GrenadeType := grenadeType
           , Position := pos, Tick := tick }] } }

/-- `events.BombPlanted` handler: skip during warmup; otherwise it
dereferences `e.Player.Name` with no nil check (`none` on absent planter).
The `Position` field of the literal is omitted in the source, hence the Go
zero value. -/
def handleBombPlanted (planter : Option String) (site : Char) (tick : Int)
    (s : ParseState) : Option ParseState :=
  if s.isWarmup then some s
  else
    match planter with
    | none => none
    | some planterName =>
      some { s with gameEvents := { s.gameEvents with
        BombEvents := s.gameEvents.BombEvents ++
          [{ Player := planterName, Site := site.toString, EventType := "planted"
           , Position := Position.zero, Tick := tick }] } }

/-- `events.BombDefused` handler: skip during warmup; otherwise it
dereferences `e.Player.Name` with no nil check (`none` on absent defuser);
the site is recorded empty. -/
def handleBombDefused (defuser : Option String) (tick : Int)
    (s : ParseState) : Option ParseState :=
  if s.isWarmup then some s
  else
    match defuser with
    | none => none
    | some defuserName =>
      some { s with gameEvents := { s.gameEvents with
        BombEvents := s.gameEvents.BombEvents ++
          [{ Player := defuserName, Site := "", EventType := "defused"
           , Position := Position.zero, Tick := tick }] } }

/-- `events.BombExplode` handler: skip during warmup; otherwise record an
event with empty player and site. -/
def handleBombExplode (tick : Int) (s : ParseState) : ParseState :=
  if s.isWarmup then s
  else
    { s with gameEvents := { s.gameEvents with
      BombEvents := s.gameEvents.BombEvents ++
        [{ Player := "", Site := "", EventType := "exploded"
         , Position := Position.zero, Tick := tick }] } }

/-- `events.RoundEndReasonTerroristsWin` from the external demoinfocs
library (value 9 there). -/
def RoundEndReasonTerroristsWin : Int := 9

/-- `events.RoundEndReasonCTWin` from the external demoinfocs library
(value 8 there). -/
def RoundEndReasonCTWin : Int := 8

/-- `events.RoundEndReasonBombDefused` from the external demoinfocs
library (value 7 there). -/
def RoundEndReasonBombDefused : Int := 7

/-- The `reason` switch in the round-end handler: initialised to
`"unknown"` and overwritten by the matching case, if any. -/
def roundEndReasonLabel (reason : Int) : String :=
  if reason = RoundEndReasonTerroristsWin then "terrorists_win"
  else if reason = RoundEndReasonCTWin then "ct_win"
  else if reason = RoundEndReasonBombDefused then "bomb_defused"
  else "unknown"

/-- The `winner` if-chain in the round-end handler: team code 2 is
Terrorists, 3 is Counter-Terrorists, anything else is `"none"`. -/
def winnerLabel (winner : Int) : String :=
  if winner = 2 then "Terrorists"
  else if winner = 3 then "Counter-Terrorists"
  else "none"

/-- `events.RoundEnd` handler: translate reason and winner, read both
scores, append a `RoundEvent`.  No warmup check in the source. -/
def handleRoundEnd (reason winner scoreCT scoreT tick : Int)
    (s : ParseState) : ParseState :=
  { s with gameEvents := { s.gameEvents with
    RoundEvents := s.gameEvents.RoundEvents ++
      [{ EventType := "round_end", Reason := roundEndReasonLabel reason
       , Winner := winnerLabel winner, ScoreCT := scoreCT, ScoreT := scoreT
       , Tick := tick }] }}

/-- Dispatch one parser event to its registered handler.  `none` models a
handler panic; `playerHurt` has no registered handler and is a no-op. -/
def step (e : DemoEvent) (s : ParseState) : Option ParseState :=
  match e with
  | .roundStart warmupNow => some (handleRoundStart warmupNow s)
  | .kill killer victim assister weapon isHeadshot penetratedObjects tick =>
      some (handleKill killer victim assister weapon isHeadshot penetratedObjects tick s)
  | .grenade thrower grenadeType pos tick => handleGrenade thrower grenadeType pos tick s
  | .bombPlanted planter site tick => handleBombPlanted planter site tick s
  | .bombDefused defuser tick => handleBombDefused defuser tick s
  | .bombExplode tick => some (handleBombExplode tick s)
  | .roundEnd reason winner scoreCT scoreT tick =>
      some (handleRoundEnd reason winner scoreCT scoreT tick s)
  | .playerHurt => some s

/-- Fold the event stream through the handlers, propagating panics. -/
def runEvents : List DemoEvent → ParseState → Option ParseState
  | [], s => some s
  | e :: es, s => (step e s).bind (runEvents es)

/-- Whether an event is a round start. -/
def isRoundStart : DemoEvent → Bool
  | .roundStart _ => true
  | _ => false

/-- The `parse` function: run the handlers over the stream, then return
`ParseToEnd`'s error verbatim if it failed (discarding the accumulator),
and the accumulated `GameEvents` otherwise.  The outer `Option` is `none`
when a handler panicked. -/
def parse (stream : List DemoEvent) (parseToEndError : Option String) :
    Option (Except String GameEvents) :=
  (runEvents stream initState).map fun s =>
    match parseToEndError with
    | some msg => Except.error msg
    | none => Except.ok s.gameEvents

/-- C1: while the warmup flag is set, the kill handler returns without
touching the state: no `KillEvent` is appended to any round's sequence in
`Rounds`, and none to the flat `Kills` list. -/
theorem warmup_kill_emits_nothing (killer victim : Option (String × Position))
    (assister weapon : Option String) (isHeadshot : Bool) (penetratedObjects tick : Int)
    (s : ParseState) (hw : s.isWarmup = true) :
    ∃ s', step (.kill killer victim assister weapon isHeadshot penetratedObjects tick) s
        = some s' ∧
      (∀ r, s'.gameEvents.Rounds r = s.gameEvents.Rounds r) ∧
      s'.gameEvents.Kills = s.gameEvents.Kills := by
  refine ⟨s, ?_, fun r => rfl, rfl⟩
  simp [step, handleKill, hw]

/-- Witness for C1 at a concrete warmup state and kill event. -/
theorem warmup_kill_emits_nothing_witness :
    ∃ s', step (.kill (some ("A", Position.zero)) (some ("B", Position.zero))
          none none true 0 42) initState = some s' ∧
      (∀ r, s'.gameEvents.Rounds r = initState.gameEvents.Rounds r) ∧
      s'.gameEvents.Kills = initState.gameEvents.Kills :=
  warmup_kill_emits_nothing (some ("A", Position.zero)) (some ("B", Position.zero))
    none none true 0 42 initState rfl

/-- Helper: no handler other than the round-start handler touches the
round counter. -/
theorem step_currentRound_eq (e : DemoEvent) (s s' : ParseState)
    (h : step e s = some s') (hnrs : isRoundStart e = false) :
    s'.currentRound = s.currentRound := by
  cases e with
  | roundStart warmupNow => simp [isRoundStart] at hnrs
  | kill killer victim assister weapon isHeadshot penetratedObjects tick =>
    obtain rfl := Option.some.inj h
    unfold handleKill
    split <;> rfl
  | grenade thrower grenadeType pos tick =>
    simp only [step] at h
    unfold handleGrenade at h
    split at h
    · obtain rfl := Option.some.inj h; rfl
    · cases thrower with
      | none => exact Option.noConfusion h
      | some throwerName => obtain rfl := Option.some.inj h; rfl
  | bombPlanted planter site tick =>
    simp only [step] at h
    unfold handleBombPlanted at h
    split at h
    · obtain rfl := Option.some.inj h; rfl
    · cases planter with
      | none => exact Option.noConfusion h
      | some planterName => obtain rfl := Option.some.inj h; rfl
  | bombDefused defuser tick =>
    simp only [step] at h
    unfold handleBombDefused at h
    split at h
    · obtain rfl := Option.some.inj h; rfl
    · cases defuser with
      | none => exact Option.noConfusion h
      | some defuserName => obtain rfl := Option.some.inj h; rfl
  | bombExplode tick =>
    obtain rfl := Option.some.inj h
    unfold handleBombExplode
    split <;> rfl
  | roundEnd reason winner scoreCT scoreT tick =>
    obtain rfl := Option.some.inj h; rfl
  | playerHurt => obtain rfl := Option.some.inj h; rfl

/-- C2: the round counter starts at 0 so the first round-start makes it 1;
each round-start dispatch increments it by exactly 1; no other event
changes it; and a kill emitted outside warmup is appended to the sequence
keyed by the round number current when the event fired. -/
theorem round_counter_invariant :
    initState.currentRound = 0 ∧
    (∀ warmupNow s s', step (.roundStart warmupNow) s = some s' →
      s'.currentRound = s.currentRound + 1) ∧
    (∀ e s s', step e s = some s' → isRoundStart e = false →
      s'.currentRound = s.currentRound) ∧
    (∀ killer victim assister weapon isHeadshot penetratedObjects tick s,
      s.isWarmup = false →
      ∃ s', step (.kill killer victim assister weapon isHeadshot penetratedObjects tick) s
          = some s' ∧
        s'.gameEvents.Rounds s.currentRound = s.gameEvents.Rounds s.currentRound ++
          [killEventOf killer victim assister weapon isHeadshot penetratedObjects tick] ∧
        (∀ r, r ≠ s.currentRound → s'.gameEvents.Rounds r = s.gameEvents.Rounds r)) := by
  refine ⟨rfl, ?_, step_currentRound_eq, ?_⟩
  · intro warmupNow s s' h
    obtain rfl := Option.some.inj h
    rfl
  · intro killer victim assister weapon isHeadshot penetratedObjects tick s hw
    refine ⟨_, rfl, ?_, ?_⟩
    · simp [handleKill, hw]
    · intro r hr
      simp [handleKill, hw, hr]

/-- Witness for C2 at concrete events and states (the non-warmup state is
the one reached by a round start whose state query reports no warmup). -/
theorem round_counter_invariant_witness :
    initState.currentRound = 0 ∧
    (handleRoundStart false initState).currentRound = 1 ∧
    (handleBombExplode 7 initState).currentRound = initState.currentRound ∧
    ∃ s', step (.kill none none none none false 3 9) (handleRoundStart false initState)
        = some s' ∧
      s'.gameEvents.Rounds 1 = [killEventOf none none none none false 3 9] := by
  obtain ⟨h1, h2, h3, h4⟩ := round_counter_invariant
  refine ⟨h1, h2 false initState _ rfl, h3 (.bombExplode 7) initState _ rfl rfl, ?_⟩
  obtain ⟨s', hstep, hcur, -⟩ :=
    h4 none none none none false 3 9 (handleRoundStart false initState) rfl
  exact ⟨s', hstep, hcur⟩

/-- C5: the round-end reason code maps deterministically into the four
fixed labels, the three recognised library codes map to their labels, any
other code maps to "unknown"; winner code 2 maps to "Terrorists", 3 to
"Counter-Terrorists", anything else to "none"; and the emitted
`RoundEvent` carries exactly these translations together with the scores
and tick read at dispatch time. -/
theorem round_end_label_mapping :
    (∀ reason, roundEndReasonLabel reason = "terrorists_win" ∨
      roundEndReasonLabel reason = "ct_win" ∨
      roundEndReasonLabel reason = "bomb_defused" ∨
      roundEndReasonLabel reason = "unknown") ∧
    roundEndReasonLabel RoundEndReasonTerroristsWin = "terrorists_win" ∧
    roundEndReasonLabel RoundEndReasonCTWin = "ct_win" ∧
    roundEndReasonLabel RoundEndReasonBombDefused = "bomb_defused" ∧
    (∀ reason, reason ≠ RoundEndReasonTerroristsWin → reason ≠ RoundEndReasonCTWin →
      reason ≠ RoundEndReasonBombDefused → roundEndReasonLabel reason = "unknown") ∧
    winnerLabel 2 = "Terrorists" ∧
    winnerLabel 3 = "Counter-Terrorists" ∧
    (∀ winner, winner ≠ 2 → winner ≠ 3 → winnerLabel winner = "none") ∧
    (∀ reason winner scoreCT scoreT tick s s',
      step (.roundEnd reason winner scoreCT scoreT tick) s = some s' →
      s'.gameEvents.RoundEvents = s.gameEvents.RoundEvents ++
        [{ EventType := "round_end", Reason := roundEndReasonLabel reason
         , Winner := winnerLabel winner, ScoreCT := scoreCT, ScoreT := scoreT
         , Tick := tick }]) := by
  refine ⟨?_, rfl, rfl, rfl, ?_, rfl, rfl, ?_, ?_⟩
  · intro reason
    unfold roundEndReasonLabel
    split_ifs <;> simp
  · intro reason h1 h2 h3
    simp [roundEndReasonLabel, h1, h2, h3]
  · intro winner h1 h2
    simp [winnerLabel, h1, h2]
  · intro reason winner scoreCT scoreT tick s s' h
    obtain rfl := Option.some.inj h
    rfl

/-- Witness for C5: an unrecognised reason code and winner code, and one
concrete round-end dispatch. -/
theorem round_end_label_mapping_witness :
    roundEndReasonLabel 5 = "unknown" ∧ winnerLabel 0 = "none" ∧
    (handleRoundEnd 9 2 1 0 100 initState).gameEvents.RoundEvents =
      [{ EventType := "round_end", Reason := "terrorists_win", Winner := "Terrorists"
       , ScoreCT := 1, ScoreT := 0, Tick := 100 }] := by
  obtain ⟨-, -, -, -, h5, -, -, h8, h9⟩ := round_end_label_mapping
  refine ⟨h5 5 (by decide) (by decide) (by decide), h8 0 (by decide) (by decide), ?_⟩
  rw [h9 9 2 1 0 100 initState _ rfl]
  rfl

/-- C6: the `Penetrated` flag of every emitted `KillEvent` is true exactly
when the event's penetrated-objects count is strictly positive. -/
theorem penetrated_iff_positive (killer victim : Option (String × Position))
    (assister weapon : Option String) (isHeadshot : Bool) (penetratedObjects tick : Int)
    (s : ParseState) (hw : s.isWarmup = false) :
    ∃ s', step (.kill killer victim assister weapon isHeadshot penetratedObjects tick) s
        = some s' ∧
      s'.gameEvents.Rounds s.currentRound = s.gameEvents.Rounds s.currentRound ++
        [killEventOf killer victim assister weapon isHeadshot penetratedObjects tick] ∧
      ((killEventOf killer victim assister weapon isHeadshot penetratedObjects tick).Penetrated
          = true ↔ 0 < penetratedObjects) := by
  refine ⟨_, rfl, ?_, ?_⟩
  · simp [handleKill, hw]
  · simp [killEventOf]

/-- Witness for C6: a concrete wallbang kill (2 objects penetrated) in a
non-warmup state. -/
theorem penetrated_iff_positive_witness :
    ∃ s', step (.kill (some ("A", Position.zero)) (some ("B", Position.zero))
          none (some "AK-47") false 2 11) (handleRoundStart false initState) = some s' ∧
      s'.gameEvents.Rounds 1 = [killEventOf (some ("A", Position.zero))
        (some ("B", Position.zero)) none (some "AK-47") false 2 11] ∧
      ((killEventOf (some ("A", Position.zero)) (some ("B", Position.zero))
          none (some "AK-47") false 2 11).Penetrated = true ↔ (0 : Int) < 2) :=
  penetrated_iff_positive (some ("A", Position.zero)) (some ("B", Position.zero))
    none (some "AK-47") false 2 11 (handleRoundStart false initState) rfl

/-- C7: on a non-warmup kill the handler cannot fail; an absent killer or
victim contributes an empty name and the zero position, an absent assister
an empty assister name, an absent weapon an empty weapon string. -/
theorem kill_missing_entity_defaults (killer victim : Option (String × Position))
    (assister weapon : Option String) (isHeadshot : Bool) (penetratedObjects tick : Int)
    (s : ParseState) (hw : s.isWarmup = false) :
    ∃ s', step (.kill killer victim assister weapon isHeadshot penetratedObjects tick) s
        = some s' ∧
      s'.gameEvents.Rounds s.currentRound = s.gameEvents.Rounds s.currentRound ++
        [killEventOf killer victim assister weapon isHeadshot penetratedObjects tick] ∧
      (killer = none →
        (killEventOf killer victim assister weapon isHeadshot penetratedObjects tick).Killer
            = "" ∧
        (killEventOf killer victim assister weapon isHeadshot penetratedObjects tick).KillerPos
            = Position.zero) ∧
      (victim = none →
        (killEventOf killer victim assister weapon isHeadshot penetratedObjects tick).Victim
            = "" ∧
        (killEventOf killer victim assister weapon isHeadshot penetratedObjects tick).VictimPos
            = Position.zero) ∧
      (assister = none →
        (killEventOf killer victim assister weapon isHeadshot penetratedObjects tick).Assister
            = "") ∧
      (weapon = none →
        (killEventOf killer victim assister weapon isHeadshot penetratedObjects tick).Weapon
            = "") := by
  refine ⟨_, rfl, by simp [handleKill, hw], ?_, ?_, ?_, ?_⟩
  · rintro rfl; exact ⟨rfl, rfl⟩
  · rintro rfl; exact ⟨rfl, rfl⟩
  · rintro rfl; rfl
  · rintro rfl; rfl

/-- Witness for C7: a kill with every optional reference absent, in a
non-warmup state. -/
theorem kill_missing_entity_defaults_witness :
    ∃ s', step (.kill none none none none false 0 13) (handleRoundStart false initState)
        = some s' ∧
      s'.gameEvents.Rounds 1 = [killEventOf none none none none false 0 13] ∧
      (killEventOf none none none none false 0 13).Killer = "" ∧
      (killEventOf none none none none false 0 13).KillerPos = Position.zero ∧
      (killEventOf none none none none false 0 13).Victim = "" ∧
      (killEventOf none none none none false 0 13).VictimPos = Position.zero ∧
      (killEventOf none none none none false 0 13).Assister = "" ∧
      (killEventOf none none none none false 0 13).Weapon = "" := by
  obtain ⟨s', h1, h2, h3, h4, h5, h6⟩ :=
    kill_missing_entity_defaults none none none none false 0 13
      (handleRoundStart false initState) rfl
  exact ⟨s', h1, h2, (h3 rfl).1, (h3 rfl).2, (h4 rfl).1, (h4 rfl).2, h5 rfl, h6 rfl⟩

/-- C3 counterexample: with warmup off, a grenade event whose thrower
reference is absent makes the grenade handler dereference a nil pointer
(`grenade.Thrower.Name`): the projector itself fails, refuting that every
handler runs to completion regardless of absent references. -/
theorem projector_never_fails_counterexample :
    step (.grenade none "HE Grenade" Position.zero 100)
      { currentRound := 1, isWarmup := false, gameEvents := initGameEvents } = none := rfl

/-- C3 (amended): the kill, round-start, bomb-explode, round-end and
(unsubscribed) player-hurt dispatches always run to completion; the
grenade, bomb-planted and bomb-defused handlers run to completion whenever
warmup is set (early return) or their dereferenced reference (thrower,
planter, defuser) is present. -/
theorem handler_totality :
    (∀ killer victim assister weapon isHeadshot penetratedObjects tick s,
      ∃ s', step (.kill killer victim assister weapon isHeadshot penetratedObjects tick) s
          = some s') ∧
    (∀ warmupNow s, ∃ s', step (.roundStart warmupNow) s = some s') ∧
    (∀ tick s, ∃ s', step (.bombExplode tick) s = some s') ∧
    (∀ reason winner scoreCT scoreT tick s,
      ∃ s', step (.roundEnd reason winner scoreCT scoreT tick) s = some s') ∧
    (∀ s, ∃ s', step .playerHurt s = some s') ∧
    (∀ thrower grenadeType pos tick s, s.isWarmup = true ∨ thrower ≠ none →
      ∃ s', step (.grenade thrower grenadeType pos tick) s = some s') ∧
    (∀ planter site tick s, s.isWarmup = true ∨ planter ≠ none →
      ∃ s', step (.bombPlanted planter site tick) s = some s') ∧
    (∀ defuser tick s, s.isWarmup = true ∨ defuser ≠ none →
      ∃ s', step (.bombDefused defuser tick) s = some s') := by
  refine ⟨fun _ _ _ _ _ _ _ _ => ⟨_, rfl⟩, fun _ _ => ⟨_, rfl⟩, fun _ _ => ⟨_, rfl⟩,
    fun _ _ _ _ _ _ => ⟨_, rfl⟩, fun _ => ⟨_, rfl⟩, ?_, ?_, ?_⟩
  · intro thrower grenadeType pos tick s h
    refine Option.isSome_iff_exists.mp ?_
    simp only [step]
    unfold handleGrenade
    split
    · rfl
    · rename_i hcond
      rcases h with hw | hth
      · exact absurd hw hcond
      · cases thrower with
        | none => exact absurd rfl hth
        | some throwerName => rfl
  · intro planter site tick s h
    refine Option.isSome_iff_exists.mp ?_
    simp only [step]
    unfold handleBombPlanted
    split
    · rfl
    · rename_i hcond
      rcases h with hw | hpl
      · exact absurd hw hcond
      · cases planter with
        | none => exact absurd rfl hpl
        | some planterName => rfl
  · intro defuser tick s h
    refine Option.isSome_iff_exists.mp ?_
    simp only [step]
    unfold handleBombDefused
    split
    · rfl
    · rename_i hcond
      rcases h with hw | hdf
      · exact absurd hw hcond
      · cases defuser with
        | none => exact absurd rfl hdf
        | some defuserName => rfl

/-- Witness for amended C3: concrete dispatches of every kind, with the
present-reference side conditions discharged. -/
theorem handler_totality_witness :
    (∃ s', step (.kill none none none none true 1 2) initState = some s') ∧
    (∃ s', step (.roundStart false) initState = some s') ∧
    (∃ s', step (.bombExplode 3) initState = some s') ∧
    (∃ s', step (.roundEnd 8 3 1 0 4) initState = some s') ∧
    (∃ s', step .playerHurt initState = some s') ∧
    (∃ s', step (.grenade (some "T") "Flashbang" Position.zero 5) initState = some s') ∧
    (∃ s', step (.bombPlanted (some "P") 'B' 6) initState = some s') ∧
    (∃ s', step (.bombDefused (some "D") 7) initState = some s') := by
  obtain ⟨h1, h2, h3, h4, h5, h6, h7, h8⟩ := handler_totality
  exact ⟨h1 none none none none true 1 2 initState, h2 false initState,
    h3 3 initState, h4 8 3 1 0 4 initState, h5 initState,
    h6 (some "T") "Flashbang" Position.zero 5 initState (Or.inr (by simp)),
    h7 (some "P") 'B' 6 initState (Or.inr (by simp)),
    h8 (some "D") 7 initState (Or.inr (by simp))⟩

/-- C4 counterexample: a bomb-planted event dispatched during warmup (with
the planter present) appends nothing to `BombEvents`, refuting that every
bomb-planted dispatch emits a record. -/
theorem bomb_planted_always_emits_counterexample :
    (step (.bombPlanted (some "alice") 'A' 50)
        { currentRound := 0, isWarmup := true, gameEvents := initGameEvents }).map
      (fun s => s.gameEvents.BombEvents) = some [] := rfl

/-- C4 (amended): for every bomb-planted event dispatched while the warmup
flag is clear and whose planter entity is present, a `BombEvent` with the
planter's name, the site label, event type "planted" and the current tick
is appended to `BombEvents` (during warmup the handler emits nothing, and
an absent planter makes it fail instead). -/
theorem bomb_planted_emits (planterName : String) (site : Char) (tick : Int)
    (s : ParseState) (hw : s.isWarmup = false) :
    ∃ s', step (.bombPlanted (some planterName) site tick) s = some s' ∧
      s'.gameEvents.BombEvents = s.gameEvents.BombEvents ++
        [{ Player := planterName, Site := site.toString, EventType := "planted"
         , Position := Position.zero, Tick := tick }] := by
  have hs : step (.bombPlanted (some planterName) site tick) s =
      some { s with gameEvents := { s.gameEvents with
        BombEvents := s.gameEvents.BombEvents ++
          [{ Player := planterName, Site := site.toString, EventType := "planted"
           , Position := Position.zero, Tick := tick }] } } := by
    simp only [step]
    unfold handleBombPlanted
    rw [hw]
    rfl
  exact ⟨_, hs, rfl⟩

/-- Witness for amended C4: a concrete planted event in a non-warmup
state. -/
theorem bomb_planted_emits_witness :
    ∃ s', step (.bombPlanted (some "alice") 'A' 50) (handleRoundStart false initState)
        = some s' ∧
      s'.gameEvents.BombEvents =
        [{ Player := "alice", Site := "A", EventType := "planted"
         , Position := Position.zero, Tick := 50 }] :=
  bomb_planted_emits "alice" 'A' 50 (handleRoundStart false initState) rfl

/-- Helper: no handler ever appends to the flat `Kills` list, and no
handler appends to `PlayerHurts` (none is registered for hurt events). -/
theorem step_kills_hurts (e : DemoEvent) (s s' : ParseState) (h : step e s = some s') :
    s'.gameEvents.Kills = s.gameEvents.Kills ∧
    s'.gameEvents.PlayerHurts = s.gameEvents.PlayerHurts := by
  cases e with
  | roundStart warmupNow => obtain rfl := Option.some.inj h; exact ⟨rfl, rfl⟩
  | kill killer victim assister weapon isHeadshot penetratedObjects tick =>
    obtain rfl := Option.some.inj h
    constructor <;> (unfold handleKill; split <;> rfl)
  | grenade thrower grenadeType pos tick =>
    simp only [step] at h
    unfold handleGrenade at h
    split at h
    · obtain rfl := Option.some.inj h; exact ⟨rfl, rfl⟩
    · cases thrower with
      | none => exact Option.noConfusion h
      | some throwerName => obtain rfl := Option.some.inj h; exact ⟨rfl, rfl⟩
  | bombPlanted planter site tick =>
    simp only [step] at h
    unfold handleBombPlanted at h
    split at h
    · obtain rfl := Option.some.inj h; exact ⟨rfl, rfl⟩
    · cases planter with
      | none => exact Option.noConfusion h
      | some planterName => obtain rfl := Option.some.inj h; exact ⟨rfl, rfl⟩
  | bombDefused defuser tick =>
    simp only [step] at h
    unfold handleBombDefused at h
    split at h
    · obtain rfl := Option.some.inj h; exact ⟨rfl, rfl⟩
    · cases defuser with
      | none => exact Option.noConfusion h
      | some defuserName => obtain rfl := Option.some.inj h; exact ⟨rfl, rfl⟩
  | bombExplode tick =>
    obtain rfl := Option.some.inj h
    constructor <;> (unfold handleBombExplode; split <;> rfl)
  | roundEnd reason winner scoreCT scoreT tick =>
    obtain rfl := Option.some.inj h; exact ⟨rfl, rfl⟩
  | playerHurt => obtain rfl := Option.some.inj h; exact ⟨rfl, rfl⟩

/-- Helper: `runEvents` never grows `Kills` or `PlayerHurts`. -/
theorem runEvents_kills_hurts : ∀ (stream : List DemoEvent) (s s' : ParseState),
    runEvents stream s = some s' →
    s'.gameEvents.Kills = s.gameEvents.Kills ∧
    s'.gameEvents.PlayerHurts = s.gameEvents.PlayerHurts
  | [], s, s', h => by
    simp only [runEvents] at h
    obtain rfl := Option.some.inj h
    exact ⟨rfl, rfl⟩
  | e :: es, s, s', h => by
    simp only [runEvents] at h
    rcases hstep : step e s with _ | s1
    · rw [hstep] at h; exact Option.noConfusion h
    · rw [hstep] at h
      obtain ⟨hk1, hp1⟩ := step_kills_hurts e s s1 hstep
      obtain ⟨hk2, hp2⟩ := runEvents_kills_hurts es s1 s' h
      exact ⟨hk2.trans hk1, hp2.trans hp1⟩

/-- C9: for every input stream, the resulting aggregate has an empty
`Kills` list (kills go only into `Rounds`) and an empty `PlayerHurts`
list (no hurt handler is registered). -/
theorem kills_and_player_hurts_always_empty (stream : List DemoEvent) (s' : ParseState)
    (h : runEvents stream initState = some s') :
    s'.gameEvents.Kills = [] ∧ s'.gameEvents.PlayerHurts = [] := by
  obtain ⟨hk, hp⟩ := runEvents_kills_hurts stream initState s' h
  exact ⟨hk, hp⟩

/-- A concrete event stream with a round start, a kill and a round end. -/
def demoStream : List DemoEvent :=
  [ .roundStart false
  , .kill (some ("A", { X := 1, Y := 2, Z := 3 })) (some ("B", { X := 4, Y := 5, Z := 6 }))
      none (some "AK-47") true 0 5
  , .roundEnd 8 3 1 0 10 ]

/-- Witness for C9 on the concrete stream. -/
theorem kills_and_player_hurts_always_empty_witness :
    ∃ s', runEvents demoStream initState = some s' ∧
      s'.gameEvents.Kills = [] ∧ s'.gameEvents.PlayerHurts = [] := by
  refine ⟨_, rfl, kills_and_player_hurts_always_empty demoStream _ rfl⟩

/-- Helper: no handler other than the round-start handler writes the
warmup flag. -/
theorem step_isWarmup_eq (e : DemoEvent) (s s' : ParseState)
    (h : step e s = some s') (hnrs : isRoundStart e = false) :
    s'.isWarmup = s.isWarmup := by
  cases e with
  | roundStart warmupNow => simp [isRoundStart] at hnrs
  | kill killer victim assister weapon isHeadshot penetratedObjects tick =>
    obtain rfl := Option.some.inj h
    unfold handleKill
    split <;> rfl
  | grenade thrower grenadeType pos tick =>
    simp only [step] at h
    unfold handleGrenade at h
    split at h
    · obtain rfl := Option.some.inj h; rfl
    · cases thrower with
      | none => exact Option.noConfusion h
      | some throwerName => obtain rfl := Option.some.inj h; rfl
  | bombPlanted planter site tick =>
    simp only [step] at h
    unfold handleBombPlanted at h
    split at h
    · obtain rfl := Option.some.inj h; rfl
    · cases planter with
      | none => exact Option.noConfusion h
      | some planterName => obtain rfl := Option.some.inj h; rfl
  | bombDefused defuser tick =>
    simp only [step] at h
    unfold handleBombDefused at h
    split at h
    · obtain rfl := Option.some.inj h; rfl
    · cases defuser with
      | none => exact Option.noConfusion h
      | some defuserName => obtain rfl := Option.some.inj h; rfl
  | bombExplode tick =>
    obtain rfl := Option.some.inj h
    unfold handleBombExplode
    split <;> rfl
  | roundEnd reason winner scoreCT scoreT tick =>
    obtain rfl := Option.some.inj h; rfl
  | playerHurt => obtain rfl := Option.some.inj h; rfl

/-- Helper: while the warmup flag is set, any non-round-start dispatch
leaves the flag set and the kill, grenade and bomb collections (and every
round's sequence) unchanged. -/
theorem step_warmup_inert (e : DemoEvent) (s s' : ParseState)
    (hw : s.isWarmup = true) (hnrs : isRoundStart e = false) (h : step e s = some s') :
    s'.isWarmup = true ∧
    s'.gameEvents.Kills = s.gameEvents.Kills ∧
    s'.gameEvents.Grenades = s.gameEvents.Grenades ∧
    s'.gameEvents.BombEvents = s.gameEvents.BombEvents ∧
    (∀ r, s'.gameEvents.Rounds r = s.gameEvents.Rounds r) := by
  cases e with
  | roundStart warmupNow => simp [isRoundStart] at hnrs
  | kill killer victim assister weapon isHeadshot penetratedObjects tick =>
    obtain rfl := Option.some.inj h
    unfold handleKill
    rw [hw]
    exact ⟨hw, rfl, rfl, rfl, fun r => rfl⟩
  | grenade thrower grenadeType pos tick =>
    simp only [step] at h
    unfold handleGrenade at h
    split at h
    · obtain rfl := Option.some.inj h; exact ⟨hw, rfl, rfl, rfl, fun r => rfl⟩
    · rename_i hcond; exact absurd hw hcond
  | bombPlanted planter site tick =>
    simp only [step] at h
    unfold handleBombPlanted at h
    split at h
    · obtain rfl := Option.some.inj h; exact ⟨hw, rfl, rfl, rfl, fun r => rfl⟩
    · rename_i hcond; exact absurd hw hcond
  | bombDefused defuser tick =>
    simp only [step] at h
    unfold handleBombDefused at h
    split at h
    · obtain rfl := Option.some.inj h; exact ⟨hw, rfl, rfl, rfl, fun r => rfl⟩
    · rename_i hcond; exact absurd hw hcond
  | bombExplode tick =>
    obtain rfl := Option.some.inj h
    unfold handleBombExplode
    rw [hw]
    exact ⟨hw, rfl, rfl, rfl, fun r => rfl⟩
  | roundEnd reason winner scoreCT scoreT tick =>
    obtain rfl := Option.some.inj h
    exact ⟨hw, rfl, rfl, rfl, fun r => rfl⟩
  | playerHurt =>
    obtain rfl := Option.some.inj h
    exact ⟨hw, rfl, rfl, rfl, fun r => rfl⟩

/-- Helper: along a round-start-free stream from a warmup state, the flag
stays set and those collections stay unchanged. -/
theorem runEvents_warmup_inert : ∀ (stream : List DemoEvent) (s s' : ParseState),
    (∀ e ∈ stream, isRoundStart e = false) → s.isWarmup = true →
    runEvents stream s = some s' →
    s'.isWarmup = true ∧
    s'.gameEvents.Kills = s.gameEvents.Kills ∧
    s'.gameEvents.Grenades = s.gameEvents.Grenades ∧
    s'.gameEvents.BombEvents = s.gameEvents.BombEvents ∧
    (∀ r, s'.gameEvents.Rounds r = s.gameEvents.Rounds r)
  | [], s, s', _, hw, h => by
    simp only [runEvents] at h
    obtain rfl := Option.some.inj h
    exact ⟨hw, rfl, rfl, rfl, fun r => rfl⟩
  | e :: es, s, s', hall, hw, h => by
    simp only [runEvents] at h
    rcases hstep : step e s with _ | s1
    · rw [hstep] at h; exact Option.noConfusion h
    · rw [hstep] at h
      obtain ⟨hw1, hk1, hg1, hb1, hr1⟩ :=
        step_warmup_inert e s s1 hw (hall e (List.mem_cons_self e es)) hstep
      obtain ⟨hw2, hk2, hg2, hb2, hr2⟩ :=
        runEvents_warmup_inert es s1 s' (fun x hx => hall x (List.mem_cons_of_mem e hx)) hw1 h
      exact ⟨hw2, hk2.trans hk1, hg2.trans hg1, hb2.trans hb1, fun r => (hr2 r).trans (hr1 r)⟩

/-- C10: the warmup flag starts set and is only refreshed by round-start
dispatches, so a stream that has not yet seen a round start accumulates no
kill, grenade or bomb record in any collection. -/
theorem pre_first_round_start_discarded :
    initState.isWarmup = true ∧
    (∀ e s s', step e s = some s' → isRoundStart e = false →
      s'.isWarmup = s.isWarmup) ∧
    (∀ stream s', (∀ e ∈ stream, isRoundStart e = false) →
      runEvents stream initState = some s' →
      s'.gameEvents.Kills = [] ∧ s'.gameEvents.Grenades = [] ∧
      s'.gameEvents.BombEvents = [] ∧ (∀ r, s'.gameEvents.Rounds r = [])) := by
  refine ⟨rfl, step_isWarmup_eq, ?_⟩
  intro stream s' hall h
  obtain ⟨-, hk, hg, hb, hr⟩ := runEvents_warmup_inert stream initState s' hall rfl h
  exact ⟨hk, hg, hb, fun r => hr r⟩

/-- A concrete round-start-free stream: every droppable event kind before
the first round start, plus a round end. -/
def demoWarmupStream : List DemoEvent :=
  [ .kill (some ("A", Position.zero)) (some ("B", Position.zero)) none (some "Glock-18") false 1 2
  , .grenade (some "T") "Smoke Grenade" Position.zero 3
  , .bombPlanted (some "P") 'A' 4
  , .bombDefused (some "D") 5
  , .bombExplode 6
  , .roundEnd 9 2 0 0 7
  , .playerHurt ]

/-- Witness for C10 on the concrete pre-round stream. -/
theorem pre_first_round_start_discarded_witness :
    ∃ s', runEvents demoWarmupStream initState = some s' ∧
      s'.gameEvents.Kills = [] ∧ s'.gameEvents.Grenades = [] ∧
      s'.gameEvents.BombEvents = [] ∧ s'.gameEvents.Rounds 0 = [] := by
  obtain ⟨-, -, h3⟩ := pre_first_round_start_discarded
  refine ⟨_, rfl, ?_⟩
  obtain ⟨hk, hg, hb, hr⟩ := h3 demoWarmupStream _ (by decide) rfl
  exact ⟨hk, hg, hb, hr 0⟩

/-- C8: if `ParseToEnd` reports an error, `parse` returns exactly that
error and no aggregate; if it succeeds, `parse` returns the full
accumulated aggregate. -/
theorem parse_error_no_partial :
    (∀ stream msg r, parse stream (some msg) = some r → r = Except.error msg) ∧
    (∀ stream s', runEvents stream initState = some s' →
      parse stream none = some (Except.ok s'.gameEvents)) := by
  constructor
  · intro stream msg r h
    unfold parse at h
    rcases hrun : runEvents stream initState with _ | s1
    · rw [hrun] at h; exact Option.noConfusion h
    · rw [hrun] at h
      obtain rfl := Option.some.inj h
      rfl
  · intro stream s' h
    unfold parse
    rw [h]
    rfl

/-- Witness for C8: a decode failure yields exactly the error outcome; a
clean run over the empty stream yields the full (empty) aggregate. -/
theorem parse_error_no_partial_witness :
    (∃ r, parse [] (some "decode failure") = some r ∧ r = Except.error "decode failure") ∧
    parse [] none = some (Except.ok initState.gameEvents) := by
  obtain ⟨h1, h2⟩ := parse_error_no_partial
  exact ⟨⟨Except.error "decode failure", rfl, h1 [] "decode failure" _ rfl⟩,
    h2 [] initState rfl⟩
